import Mathlib

/-!
Verification development for the wedding-pictures upload service.

The repository has two deployment units:
* `server.js` — an Express server uploading to Cloudinary, plus a Netlify
  signing function (`exports.handler`) issuing signed upload parameters;
* an older variant (Drive) uploading to Google Drive.

We shallowly embed the request-handling logic of both upload handlers, the
multer error middleware and the signing function.  JavaScript strings are
modelled as Lean `String` (one `Char` per code point); machine words in the
SHA-1 computation are `Nat` reduced mod 2^32.  Filesystem and remote-SDK
effects are made explicit: the remote call's outcome is a parameter, and the
result record counts `unlink` calls and records whether a remote call and
which remote folder were used.
-/

/-- Characters allowed by the regex `[a-zA-Z0-9_-]` used in `server.js`
(`guestName.replace(/[^a-zA-Z0-9_-]/g, '_')`) and in the signing function. -/
def isAllowedCloud (c : Char) : Bool :=
  decide (97 ≤ c.toNat ∧ c.toNat ≤ 122) ||
  decide (65 ≤ c.toNat ∧ c.toNat ≤ 90) ||
  decide (48 ≤ c.toNat ∧ c.toNat ≤ 57) ||
  c == '_' || c == '-'

/-- Characters allowed by the Drive variant's regex `[a-zA-Z0-9]`
(`guestName.replace(/[^a-zA-Z0-9]/g, "_")`). -/
def isAlnum (c : Char) : Bool :=
  decide (97 ≤ c.toNat ∧ c.toNat ≤ 122) ||
  decide (65 ≤ c.toNat ∧ c.toNat ≤ 90) ||
  decide (48 ≤ c.toNat ∧ c.toNat ≤ 57)

/-- One character of `replace(/[^a-zA-Z0-9_-]/g, '_')`. -/
def sanitizeChar (c : Char) : Char := if isAllowedCloud c then c else '_'

/-- `guestName.replace(/[^a-zA-Z0-9_-]/g, '_')` — the sanitization of the
Cloudinary upload handler and of the signing function (`sanitize`). -/
def sanitize (s : String) : String := String.mk (s.data.map sanitizeChar)

/-- One character of the Drive variant's `replace(/[^a-zA-Z0-9]/g, "_")`. -/
def driveSanitizeChar (c : Char) : Char := if isAlnum c then c else '_'

/-- `guestName.replace(/[^a-zA-Z0-9]/g, "_")` — the Drive variant's
`sanitizedName` computation. -/
def driveSanitize (s : String) : String := String.mk (s.data.map driveSanitizeChar)

/-- The WhiteSpace/LineTerminator set trimmed by JavaScript
`String.prototype.trim`. -/
def jsWhitespace (c : Char) : Bool :=
  c.toNat == 9 || c.toNat == 10 || c.toNat == 11 || c.toNat == 12 ||
  c.toNat == 13 || c.toNat == 32 || c.toNat == 160 || c.toNat == 0xFEFF ||
  c.toNat == 0x1680 || decide (0x2000 ≤ c.toNat ∧ c.toNat ≤ 0x200A) ||
  c.toNat == 0x2028 || c.toNat == 0x2029 || c.toNat == 0x202F ||
  c.toNat == 0x205F || c.toNat == 0x3000

/-- JavaScript `String.prototype.trim`: drop whitespace at both ends. -/
def jsTrim (s : String) : String :=
  String.mk (((s.data.dropWhile jsWhitespace).reverse.dropWhile jsWhitespace).reverse)

/-- JavaScript `v || d` for strings (the empty string is falsy); used for
`process.env.CLOUDINARY_FOLDER || 'wedding_photos'`.  An unset environment
variable is modelled as the empty string (both are falsy in every use here). -/
def jsOrDefault (v d : String) : String := if v = "" then d else v

/-! ## SHA-1 (`crypto.createHash('sha1')`), on bytes, words mod 2^32. -/

/-- Truncate to a 32-bit word. -/
def w32 (n : Nat) : Nat := n % 4294967296

/-- Rotate a 32-bit word left by `b` bits (input assumed < 2^32). -/
def rotl32 (b n : Nat) : Nat := w32 (n <<< b) ||| (n >>> (32 - b))

/-- SHA-1 padding: append `0x80`, zeros to 56 mod 64, then the 64-bit
big-endian bit length. -/
def sha1pad (msg : List Nat) : List Nat :=
  let len := msg.length
  let z := (119 - len % 64) % 64
  msg ++ [128] ++ List.replicate z 0 ++
    (List.range 8).map (fun i => ((len * 8) >>> (8 * (7 - i))) % 256)

/-- Split a byte list into 64-byte chunks. -/
def toChunks : List Nat → List (List Nat)
  | [] => []
  | a :: rest => ((a :: rest).take 64) :: toChunks (rest.drop 63)
termination_by l => l.length
decreasing_by
  simp only [List.length_drop, List.length_cons]
  omega

/-- The 16 initial 32-bit words of a chunk (big-endian). -/
def chunkWords (c : List Nat) : List Nat :=
  (List.range 16).map (fun i =>
    c.getD (4 * i) 0 * 16777216 + c.getD (4 * i + 1) 0 * 65536 +
    c.getD (4 * i + 2) 0 * 256 + c.getD (4 * i + 3) 0)

/-- Extend the word schedule by `n` words:
`w[i] = rotl1 (w[i-3] xor w[i-8] xor w[i-14] xor w[i-16])`. -/
def extendWords : Nat → List Nat → List Nat
  | 0, ws => ws
  | n + 1, ws =>
    let l := ws.length
    extendWords n (ws ++ [rotl32 1
      ((ws.getD (l - 3) 0) ^^^ (ws.getD (l - 8) 0) ^^^
       (ws.getD (l - 14) 0) ^^^ (ws.getD (l - 16) 0))])

/-- The SHA-1 round function for round `t`. -/
def sha1f (t b c d : Nat) : Nat :=
  if t < 20 then (b &&& c) ||| ((b ^^^ 4294967295) &&& d)
  else if t < 40 then b ^^^ c ^^^ d
  else if t < 60 then (b &&& c) ||| (b &&& d) ||| (c &&& d)
  else b ^^^ c ^^^ d

/-- The SHA-1 round constant for round `t`. -/
def sha1k (t : Nat) : Nat :=
  if t < 20 then 0x5A827999
  else if t < 40 then 0x6ED9EBA1
  else if t < 60 then 0x8F1BBCDC
  else 0xCA62C1D6

/-- One SHA-1 round on the state `(a, b, c, d, e)`. -/
def sha1round (ws : List Nat) (st : Nat × Nat × Nat × Nat × Nat) (t : Nat) :
    Nat × Nat × Nat × Nat × Nat :=
  let (a, b, c, d, e) := st
  (w32 (rotl32 5 a + sha1f t b c d + e + sha1k t + ws.getD t 0),
   a, rotl32 30 b, c, d)

/-- Process one 64-byte chunk, updating the running hash words. -/
def sha1chunk (hs : Nat × Nat × Nat × Nat × Nat) (c : List Nat) :
    Nat × Nat × Nat × Nat × Nat :=
  let ws := extendWords 64 (chunkWords c)
  let (h0, h1, h2, h3, h4) := hs
  let (a, b, c', d, e) := (List.range 80).foldl (sha1round ws) (h0, h1, h2, h3, h4)
  (w32 (h0 + a), w32 (h1 + b), w32 (h2 + c'), w32 (h3 + d), w32 (h4 + e))

/-- One lowercase hex digit. -/
def hexDigit (n : Nat) : Char :=
  if n < 10 then Char.ofNat (48 + n) else Char.ofNat (87 + n)

/-- A 32-bit word as 8 lowercase hex digits. -/
def hex8 (n : Nat) : String :=
  String.mk ((List.range 8).map (fun i => hexDigit ((n >>> (4 * (7 - i))) % 16)))

/-- SHA-1 digest of a byte list, as a 40-character lowercase hex string. -/
def sha1hexBytes (msg : List Nat) : String :=
  let (h0, h1, h2, h3, h4) :=
    (toChunks (sha1pad msg)).foldl sha1chunk
      (0x67452301, 0xEFCDAB89, 0x98BADCFE, 0x10325476, 0xC3D2E1F0)
  hex8 h0 ++ hex8 h1 ++ hex8 h2 ++ hex8 h3 ++ hex8 h4

/-- `crypto.createHash('sha1').update(s).digest('hex')` — SHA-1 over the
UTF-8 bytes of `s` (node's default input encoding). -/
def sha1hex (s : String) : String :=
  sha1hexBytes (s.toUTF8.toList.map (·.toNat))

/-! ## Request/response model

HTTP bodies are flat JSON objects; we model each body shape as a structure
of `Option` fields (a `none` field is absent from the JSON).  The outcome of
the remote SDK call (`cloudinary.uploader.upload` / `drive.files.*`) is a
parameter of the handler, since the handler's behaviour is a pure function
of it.  `errorId` (built in the code from `Date.now()` and `Math.random()`)
is likewise a parameter. -/

/-- A multer-saved upload: `req.file.path` and `req.file.originalname`. -/
structure UploadFile where
  path : String
  originalname : String
deriving Repr, DecidableEq

/-- Outcome of `cloudinary.uploader.upload`: resolves with a result object,
or rejects with an error whose message is `message`. -/
inductive CloudOutcome
  | ok (public_id : String) (secure_url : String)
  | err (message : String)
deriving Repr, DecidableEq

/-- A flat JSON response body of the Cloudinary server (absent keys are
`none`). -/
structure JsonBody where
  success : Option Bool
  error : Option String
  id : Option String
  file_public_id : Option String
  file_url : Option String
deriving Repr, DecidableEq

/-- Result of one `POST /upload` request to the Cloudinary server: HTTP
status, body, whether the remote store was called and with which `folder`
option, how many `fs.unlinkSync` calls ran, and whether the temp file still
exists afterwards. -/
structure UploadResult where
  status : Nat
  body : JsonBody
  remoteCalled : Bool
  remoteFolder : Option String
  unlinkCalls : Nat
  tempFileExists : Bool
deriving Repr, DecidableEq

/-- The generic client-facing error message of the Cloudinary catch block. -/
def genericUploadError (errorId : String) : String :=
  "Error al subir el archivo. Contacta al administrador con el id: " ++ errorId

/-- The `POST /upload` handler of `server.js` (Cloudinary variant).
`baseFolderEnv` models `process.env.CLOUDINARY_FOLDER` (empty = unset);
`errorId` models the id generated in the catch block.  The multer middleware
has already saved the temp file when `file` is present, so the temp file
initially exists iff `file.isSome`.  The catch block also appends a redacted
entry to `upload_errors.log` and logs to the console; these sinks do not
affect any field we track and are not modelled. -/
def uploadHandler (guestName : String) (file : Option UploadFile)
    (outcome : CloudOutcome) (errorId : String) (baseFolderEnv : String) :
    UploadResult :=
  if guestName = "" then
    ⟨400, ⟨none, some "guestName faltante", none, none, none⟩,
     false, none, 0, file.isSome⟩
  else
    match file with
    | none => ⟨400, ⟨none, some "Archivo faltante", none, none, none⟩,
               false, none, 0, false⟩
    | some _ =>
      let mainFolder := jsOrDefault baseFolderEnv "wedding_photos"
      let sanitized := sanitize guestName
      let uploadFolder := mainFolder ++ "/" ++ sanitized
      match outcome with
      | .ok pid url =>
        -- success: unlink the temp file (guarded by existsSync), answer 200
        ⟨200, ⟨some true, none, none, some pid, some url⟩,
         true, some uploadFolder, 1, false⟩
      | .err _ =>
        -- catch block: log, unlink the temp file once (it still exists —
        -- the success-path unlink was not reached), answer 500 with a
        -- generic message carrying only the correlation id
        ⟨500, ⟨some false, some (genericUploadError errorId), some errorId,
               none, none⟩,
         true, some uploadFolder, 1, false⟩

/-- The multer error middleware of `server.js`: `(errName, errCode,
errMessage)` model `err.name`, `err.code`, `err.message`; `maxMB` models
`MAX_FILE_SIZE_MB`.  Returns `none` when the middleware calls `next(err)`. -/
def multerErrorMiddleware (errName errCode errMessage : String)
    (maxMB : Nat) : Option (Nat × JsonBody) :=
  if errName = "MulterError" then
    if errCode = "LIMIT_FILE_SIZE" then
      some (413, ⟨some false,
        some ("Archivo demasiado grande. Tamaño máximo por archivo: " ++
              toString maxMB ++ " MB"), none, none, none⟩)
    else
      some (400, ⟨some false,
        some ("Error en la carga del archivo: " ++ errMessage),
        none, none, none⟩)
  else none


/-- Outcome of the Drive upload interaction (`drive.files.list/create`):
either the final `result.data` fields, or a thrown SDK error. -/
inductive DriveOutcome
  | ok (id : String) (name : String) (webViewLink : String)
  | err (message : String)
deriving Repr, DecidableEq

/-- A flat JSON response body of the Drive-variant server. -/
structure DriveBody where
  success : Option Bool
  error : Option String
  file_id : Option String
  file_name : Option String
  file_link : Option String
deriving Repr, DecidableEq

/-- Result of one `POST /upload` request to the Drive-variant server. -/
structure DriveResult where
  status : Nat
  body : DriveBody
  remoteCalled : Bool
  unlinkCalls : Nat
  tempFileExists : Bool
deriving Repr, DecidableEq

/-- The `POST /upload` handler of the Drive variant.  `oauthConfigured`
models whether `oAuth2Client` is non-null; the first remote call
(`drive.files.list`) happens as soon as validation passes, so
`remoteCalled` is true exactly then.  On both success and error the
`finally` block unlinks the temp file when it still exists: on success the
try block already unlinked it (so `existsSync` is false in `finally`), on
error only the `finally` unlink runs — one unlink either way. -/
def driveUploadHandler (oauthConfigured : Bool) (guestName : String)
    (file : Option UploadFile) (outcome : DriveOutcome) : DriveResult :=
  if !oauthConfigured then
    ⟨500, ⟨none, some "OAuth no configurado en el servidor", none, none, none⟩,
     false, 0, file.isSome⟩
  else if guestName = "" then
    ⟨400, ⟨none, some "guestName faltante", none, none, none⟩,
     false, 0, file.isSome⟩
  else
    match file with
    | none => ⟨400, ⟨none, some "Archivo faltante", none, none, none⟩,
               false, 0, false⟩
    | some _ =>
      match outcome with
      | .ok fid fname flink =>
        ⟨200, ⟨some true, none, some fid, some fname, some flink⟩,
         true, 1, false⟩
      | .err m =>
        -- catch: res.status(500).json({ success:false, error: err.message })
        ⟨500, ⟨some false, some m, none, none, none⟩, true, 1, false⟩

/-! ## The signing function (`exports.handler` in the Netlify function) -/

/-- The success body of the signing function:
`{ api_key, timestamp, signature, cloud_name, folder }` — these five keys
and no others. -/
structure SignOkBody where
  api_key : String
  timestamp : Nat
  signature : String
  cloud_name : String
  folder : String
deriving Repr, DecidableEq

/-- Body of the signing function's response: signed params or `{ error }`. -/
inductive SignBody
  | params (p : SignOkBody)
  | error (message : String)
deriving Repr, DecidableEq

/-- Response of the signing function: `statusCode` and body. -/
structure SignResponse where
  statusCode : Nat
  body : SignBody
deriving Repr, DecidableEq

/-- The signature computation of the signing function:
`sha1hex('folder=' + folder + '&timestamp=' + timestamp + API_SECRET)`. -/
def signatureOf (folder : String) (timestamp : Nat) (secret : String) : String :=
  sha1hex ("folder=" ++ folder ++ "&timestamp=" ++ toString timestamp ++ secret)

/-- `exports.handler`: given the `CLOUDINARY_*` environment (empty string =
unset/falsy), the optional `guestName` query parameter and the clock value
`Date.now()` in milliseconds, produce the signed-upload response. -/
def signHandler (cloudName apiKey apiSecret baseFolderEnv : String)
    (guestName : Option String) (nowMs : Nat) : SignResponse :=
  if cloudName = "" ∨ apiKey = "" ∨ apiSecret = "" then
    ⟨500, .error "Cloudinary no configurado en el servidor (faltan env vars)"⟩
  else
    let baseFolder := jsOrDefault baseFolderEnv "wedding_photos"
    let gn := jsTrim (guestName.getD "")
    let sanitized := if sanitize gn = "" then "anonymous" else sanitize gn
    let folder := baseFolder ++ "/" ++ sanitized
    let timestamp := nowMs / 1000
    ⟨200, .params ⟨apiKey, timestamp, signatureOf folder timestamp apiSecret,
                   cloudName, folder⟩⟩

/-! ## Helper lemmas -/

theorem sanitizeChar_idem (c : Char) : sanitizeChar (sanitizeChar c) = sanitizeChar c := by
  by_cases h : isAllowedCloud c <;> simp [sanitizeChar, h]

theorem driveSanitizeChar_idem (c : Char) :
    driveSanitizeChar (driveSanitizeChar c) = driveSanitizeChar c := by
  by_cases h : isAlnum c <;> simp [driveSanitizeChar, h]

theorem getD_map_of_lt (f : Char → Char) (l : List Char) (i : Nat)
    (h : i < l.length) (d : Char) : (l.map f).getD i d = f (l.getD i d) := by
  rw [List.getD_eq_getElem l d h, List.getD_eq_getElem (l.map f) d (by simpa using h),
    List.getElem_map]

theorem sanitize_eq_empty_iff (s : String) : sanitize s = "" ↔ s = "" := by
  cases s with
  | mk l =>
    constructor
    · intro h
      have hd : (String.mk (l.map sanitizeChar)).data = (String.mk []).data := by
        rw [show String.mk (l.map sanitizeChar) = sanitize ⟨l⟩ from rfl, h]
      simp at hd
      simp [hd]
    · intro h
      rw [h]; rfl

/-! ## Claim theorems -/

/-- C1 (amended): the sanitization used by the Cloudinary upload handler and
by the signing function (`sanitize`) maps each character outside
`[A-Za-z0-9_-]` to `_`, keeps each allowed character unchanged at its
position, and preserves length; the Drive-variant upload handler
(`driveSanitize`) does the same but for the narrower allowed set
`[A-Za-z0-9]`, so the characters `-` and `_` are mapped to `_` there. -/
theorem sanitize_pointwise_spec (s : String) (i : Nat) (h : i < s.data.length) :
    (sanitize s).data.length = s.data.length ∧
    (driveSanitize s).data.length = s.data.length ∧
    (sanitize s).data.getD i '?' =
      (if isAllowedCloud (s.data.getD i '?') then s.data.getD i '?' else '_') ∧
    (driveSanitize s).data.getD i '?' =
      (if isAlnum (s.data.getD i '?') then s.data.getD i '?' else '_') := by
  refine ⟨by simp [sanitize], by simp [driveSanitize], ?_, ?_⟩
  · rw [show (sanitize s).data = s.data.map sanitizeChar from rfl,
      getD_map_of_lt sanitizeChar s.data i h '?']
    rfl
  · rw [show (driveSanitize s).data = s.data.map driveSanitizeChar from rfl,
      getD_map_of_lt driveSanitizeChar s.data i h '?']
    rfl

/-- C1 witness: instantiation at the concrete name `"Ana Pérez!"`, index 3. -/
theorem sanitize_pointwise_spec_witness :
    3 < ("Ana Pérez!" : String).data.length ∧
    (sanitize "Ana Pérez!").data.length = ("Ana Pérez!" : String).data.length ∧
    (driveSanitize "Ana Pérez!").data.length = ("Ana Pérez!" : String).data.length ∧
    (sanitize "Ana Pérez!").data.getD 3 '?' =
      (if isAllowedCloud (("Ana Pérez!" : String).data.getD 3 '?')
       then ("Ana Pérez!" : String).data.getD 3 '?' else '_') ∧
    (driveSanitize "Ana Pérez!").data.getD 3 '?' =
      (if isAlnum (("Ana Pérez!" : String).data.getD 3 '?')
       then ("Ana Pérez!" : String).data.getD 3 '?' else '_') :=
  ⟨by decide, sanitize_pointwise_spec "Ana Pérez!" 3 (by decide)⟩

/-- C1 counterexample: the claim as stated is false for the Drive-variant
upload handler — `-` lies in `[A-Za-z0-9_-]`, yet the Drive handler's
sanitization does not leave it unchanged: it maps `"-"` to `"_"`. -/
theorem drive_sanitize_dash_counterexample :
    isAllowedCloud '-' = true ∧ driveSanitize "-" = "_" ∧
    driveSanitize "-" ≠ "-" := by
  refine ⟨by decide, by decide, by decide⟩

/-- C9: guest-name sanitization is idempotent in both upload variants and
the signing function: applying `sanitize` (Cloudinary handler and signing
function) or `driveSanitize` (Drive handler) twice equals applying it once,
because every output character is mapped to itself. -/
theorem sanitize_idempotent (s : String) :
    sanitize (sanitize s) = sanitize s ∧
    driveSanitize (driveSanitize s) = driveSanitize s := by
  constructor
  · show String.mk ((s.data.map sanitizeChar).map sanitizeChar) =
      String.mk (s.data.map sanitizeChar)
    rw [List.map_map]
    exact congrArg String.mk
      (List.map_congr_left (fun c _ => sanitizeChar_idem c))
  · show String.mk ((s.data.map driveSanitizeChar).map driveSanitizeChar) =
      String.mk (s.data.map driveSanitizeChar)
    rw [List.map_map]
    exact congrArg String.mk
      (List.map_congr_left (fun c _ => driveSanitizeChar_idem c))

/-- C4: the signature computed by the signing function is a deterministic
function of `(folder, timestamp, secret)`: two runs on identical inputs
yield identical signatures. -/
theorem signature_deterministic (f1 : String) (t1 : Nat) (s1 f2 : String)
    (t2 : Nat) (s2 : String) (hf : f1 = f2) (ht : t1 = t2) (hs : s1 = s2) :
    signatureOf f1 t1 s1 = signatureOf f2 t2 s2 := by
  rw [hf, ht, hs]

/-- C4 witness: two runs on the same concrete `(folder, timestamp, secret)`. -/
theorem signature_deterministic_witness :
    ("wedding_photos/Ana" : String) = "wedding_photos/Ana" ∧
    (1700000000 : Nat) = 1700000000 ∧ ("s3cr3t" : String) = "s3cr3t" ∧
    signatureOf "wedding_photos/Ana" 1700000000 "s3cr3t" =
      signatureOf "wedding_photos/Ana" 1700000000 "s3cr3t" :=
  ⟨rfl, rfl, rfl,
   signature_deterministic "wedding_photos/Ana" 1700000000 "s3cr3t"
     "wedding_photos/Ana" 1700000000 "s3cr3t" rfl rfl rfl⟩

/-- C2: when the Cloudinary remote upload fails, the handler unlinks the
temp file exactly once (leaving no file behind), answers 500 with
`success:false`, the generated correlation id, and a generic error message;
the whole response is independent of the provider's error text, so that
text is never included. -/
theorem upload_error_cleanup (gn : String) (f : UploadFile)
    (msg errorId baseEnv : String) (hgn : gn ≠ "") :
    (uploadHandler gn (some f) (.err msg) errorId baseEnv).status = 500 ∧
    (uploadHandler gn (some f) (.err msg) errorId baseEnv).body.success = some false ∧
    (uploadHandler gn (some f) (.err msg) errorId baseEnv).body.id = some errorId ∧
    (uploadHandler gn (some f) (.err msg) errorId baseEnv).body.error =
      some (genericUploadError errorId) ∧
    (uploadHandler gn (some f) (.err msg) errorId baseEnv).unlinkCalls = 1 ∧
    (uploadHandler gn (some f) (.err msg) errorId baseEnv).tempFileExists = false ∧
    (∀ msg', uploadHandler gn (some f) (.err msg') errorId baseEnv =
             uploadHandler gn (some f) (.err msg) errorId baseEnv) := by
  simp [uploadHandler, hgn]

/-- C2 witness: a concrete failing upload request. -/
theorem upload_error_cleanup_witness :
    ("Ana" : String) ≠ "" ∧
    (uploadHandler "Ana" (some ⟨"uploads/tmp1", "foto.jpg"⟩)
      (.err "provider exploded") "k3x-a1b2c3" "").status = 500 :=
  ⟨by decide,
   (upload_error_cleanup "Ana" ⟨"uploads/tmp1", "foto.jpg"⟩
     "provider exploded" "k3x-a1b2c3" "" (by decide)).1⟩

/-- C5 counterexample: the claim as stated fails on the Drive variant — a
request with no file sent while OAuth is unconfigured gets status 500, not
400 (the handler checks `oAuth2Client` before the file). -/
theorem missing_file_oauth_counterexample :
    (driveUploadHandler false "Ana" none (.err "e")).status = 500 ∧
    (driveUploadHandler false "Ana" none (.err "e")).status ≠ 400 ∧
    (driveUploadHandler false "Ana" none (.err "e")).remoteCalled = false := by
  refine ⟨by decide, by decide, by decide⟩

/-- C5 (amended): a request with no file never triggers a remote call in
either variant; the Cloudinary handler always answers 400, and the Drive
handler answers 400 when OAuth is configured — when it is not, the Drive
handler answers 500 instead (still without a remote call). -/
theorem missing_file_no_remote_call (gn : String) (co : CloudOutcome)
    (eid baseEnv : String) (dout : DriveOutcome) :
    ((uploadHandler gn none co eid baseEnv).status = 400 ∧
     (uploadHandler gn none co eid baseEnv).remoteCalled = false) ∧
    ((driveUploadHandler true gn none dout).status = 400 ∧
     (driveUploadHandler true gn none dout).remoteCalled = false) ∧
    ((driveUploadHandler false gn none dout).status = 500 ∧
     (driveUploadHandler false gn none dout).remoteCalled = false) := by
  by_cases hgn : gn = "" <;>
    simp [uploadHandler, driveUploadHandler, hgn]

/-- C6: the multer error middleware maps a `LIMIT_FILE_SIZE` multer error to
413 with `success:false` and a message stating the configured maximum in
MB, and every other multer error to 400 with `success:false`. -/
theorem multer_error_mapping (name code msg : String) (maxMB : Nat)
    (h : name = "MulterError") :
    (code = "LIMIT_FILE_SIZE" →
      multerErrorMiddleware name code msg maxMB =
        some (413, ⟨some false,
          some ("Archivo demasiado grande. Tamaño máximo por archivo: " ++
                toString maxMB ++ " MB"), none, none, none⟩)) ∧
    (code ≠ "LIMIT_FILE_SIZE" →
      multerErrorMiddleware name code msg maxMB =
        some (400, ⟨some false,
          some ("Error en la carga del archivo: " ++ msg),
          none, none, none⟩)) := by
  subst h
  constructor <;> intro hc <;> simp [multerErrorMiddleware, hc]

/-- C6 witness: a concrete size-limit error with a 50 MB limit. -/
theorem multer_error_mapping_witness :
    ("MulterError" : String) = "MulterError" ∧
    multerErrorMiddleware "MulterError" "LIMIT_FILE_SIZE" "File too large" 50 =
      some (413, ⟨some false,
        some ("Archivo demasiado grande. Tamaño máximo por archivo: " ++
              toString 50 ++ " MB"), none, none, none⟩) :=
  ⟨rfl, (multer_error_mapping "MulterError" "LIMIT_FILE_SIZE"
          "File too large" 50 rfl).1 rfl⟩

/-- C7: on a remote-store failure the Drive-variant handler answers 500 with
`success:false` and surfaces the raw SDK error message verbatim, while the
Cloudinary variant's error body carries only the generic message with the
correlation id, whatever the SDK message was. -/
theorem drive_error_leaks_message (gn : String) (f : UploadFile) (m : String)
    (cf : UploadFile) (eid baseEnv : String) (hgn : gn ≠ "") :
    (driveUploadHandler true gn (some f) (.err m)).status = 500 ∧
    (driveUploadHandler true gn (some f) (.err m)).body.success = some false ∧
    (driveUploadHandler true gn (some f) (.err m)).body.error = some m ∧
    (uploadHandler gn (some cf) (.err m) eid baseEnv).body.error =
      some (genericUploadError eid) := by
  simp [driveUploadHandler, uploadHandler, hgn]

/-- C7 witness: a concrete Drive remote failure. -/
theorem drive_error_leaks_message_witness :
    ("Luis" : String) ≠ "" ∧
    (driveUploadHandler true "Luis" (some ⟨"uploads/t2", "b.png"⟩)
      (.err "invalid_grant: token expired")).body.error =
      some "invalid_grant: token expired" :=
  ⟨by decide,
   (drive_error_leaks_message "Luis" ⟨"uploads/t2", "b.png"⟩
     "invalid_grant: token expired" ⟨"uploads/t3", "c.png"⟩ "id1" ""
     (by decide)).2.2.1⟩

/-- C8: when the `guestName` query parameter is absent or trims (hence
sanitizes) to the empty string, the signing function's folder uses the
fixed non-empty placeholder `anonymous` as its second path component. -/
theorem sign_anonymous_fallback (cn key secret baseEnv : String)
    (gn : Option String) (now : Nat)
    (hc : cn ≠ "") (hk : key ≠ "") (hs : secret ≠ "")
    (hgn : gn = none ∨ jsTrim (gn.getD "") = "") :
    signHandler cn key secret baseEnv gn now =
      ⟨200, .params ⟨key, now / 1000,
        signatureOf (jsOrDefault baseEnv "wedding_photos" ++ "/" ++ "anonymous")
          (now / 1000) secret,
        cn, jsOrDefault baseEnv "wedding_photos" ++ "/" ++ "anonymous"⟩⟩ ∧
    ("anonymous" : String) ≠ "" := by
  have hgn' : jsTrim (gn.getD "") = "" := by
    rcases hgn with h | h
    · rw [h]; rfl
    · exact h
  refine ⟨?_, by decide⟩
  simp [signHandler, hc, hk, hs, hgn', sanitize]

/-- C8 witness: a request with no `guestName` query parameter. -/
theorem sign_anonymous_fallback_witness :
    ("demo-cloud" : String) ≠ "" ∧
    signHandler "demo-cloud" "key123" "sec" "" none 1700000000123 =
      ⟨200, .params ⟨"key123", 1700000000123 / 1000,
        signatureOf (jsOrDefault "" "wedding_photos" ++ "/" ++ "anonymous")
          (1700000000123 / 1000) "sec",
        "demo-cloud", jsOrDefault "" "wedding_photos" ++ "/" ++ "anonymous"⟩⟩ :=
  ⟨by decide,
   (sign_anonymous_fallback "demo-cloud" "key123" "sec" "" none 1700000000123
     (by decide) (by decide) (by decide) (Or.inl rfl)).1⟩

/-- C3: with complete configuration the signing function answers 200 with a
body of exactly the five keys `api_key`, `timestamp`, `signature`,
`cloud_name`, `folder`; the signature is the SHA-1 of the key-sorted query
string `folder=<folder>&timestamp=<timestamp>` (the keys `folder` and
`timestamp` are in lexicographic order) concatenated with the API secret;
the timestamp is the integer `Date.now() / 1000`; and the secret reaches the
response only through the hash: two secrets whose hashes on this query
string agree produce identical responses. -/
theorem sign_signature_shape (cn key secret baseEnv : String)
    (gn : Option String) (now : Nat)
    (hc : cn ≠ "") (hk : key ≠ "") (hs : secret ≠ "") :
    ∃ folder,
      signHandler cn key secret baseEnv gn now =
        ⟨200, .params ⟨key, now / 1000,
          sha1hex ("folder=" ++ folder ++ "&timestamp=" ++
                   toString (now / 1000) ++ secret),
          cn, folder⟩⟩ ∧
      List.lt "folder".data "timestamp".data ∧
      (∀ secret', secret' ≠ "" →
        sha1hex ("folder=" ++ folder ++ "&timestamp=" ++
                 toString (now / 1000) ++ secret') =
        sha1hex ("folder=" ++ folder ++ "&timestamp=" ++
                 toString (now / 1000) ++ secret) →
        signHandler cn key secret' baseEnv gn now =
        signHandler cn key secret baseEnv gn now) := by
  refine ⟨jsOrDefault baseEnv "wedding_photos" ++ "/" ++
    (if sanitize (jsTrim (gn.getD "")) = "" then "anonymous"
     else sanitize (jsTrim (gn.getD ""))), ?_, List.lt.head _ _ (by decide), ?_⟩
  · simp [signHandler, hc, hk, hs, signatureOf]
  · intro secret' hs' hhash
    simp [signHandler, hc, hk, hs, hs', signatureOf]
    exact hhash

/-- C3 witness: a concrete fully configured request. -/
theorem sign_signature_shape_witness :
    ("demo-cloud" : String) ≠ "" ∧ ("key123" : String) ≠ "" ∧
    ("sec" : String) ≠ "" ∧
    ∃ folder,
      signHandler "demo-cloud" "key123" "sec" "" (some "Ana") 1700000000123 =
        ⟨200, .params ⟨"key123", 1700000000123 / 1000,
          sha1hex ("folder=" ++ folder ++ "&timestamp=" ++
                   toString (1700000000123 / 1000) ++ "sec"),
          "demo-cloud", folder⟩⟩ ∧
      List.lt "folder".data "timestamp".data ∧
      (∀ secret', secret' ≠ "" →
        sha1hex ("folder=" ++ folder ++ "&timestamp=" ++
                 toString (1700000000123 / 1000) ++ secret') =
        sha1hex ("folder=" ++ folder ++ "&timestamp=" ++
                 toString (1700000000123 / 1000) ++ "sec") →
        signHandler "demo-cloud" "key123" secret' "" (some "Ana") 1700000000123 =
        signHandler "demo-cloud" "key123" "sec" "" (some "Ana") 1700000000123) :=
  ⟨by decide, by decide, by decide,
   sign_signature_shape "demo-cloud" "key123" "sec" "" (some "Ana") 1700000000123
     (by decide) (by decide) (by decide)⟩

/-- C10: for a non-empty guest name equal to its own trim, the folder the
Cloudinary upload handler passes to the remote store equals the folder
returned by the signing function for the same guest name and base-folder
environment. -/
theorem upload_sign_folders_agree (gn : String) (f : UploadFile)
    (outcome : CloudOutcome) (eid baseEnv cn key secret : String) (now : Nat)
    (hgn : gn ≠ "") (htrim : jsTrim gn = gn)
    (hc : cn ≠ "") (hk : key ≠ "") (hs : secret ≠ "") :
    ∃ folder,
      (uploadHandler gn (some f) outcome eid baseEnv).remoteFolder = some folder ∧
      ∃ b, signHandler cn key secret baseEnv (some gn) now = ⟨200, .params b⟩ ∧
           b.folder = folder := by
  have hsan : ¬ (sanitize gn = "") := fun h => hgn ((sanitize_eq_empty_iff gn).mp h)
  refine ⟨jsOrDefault baseEnv "wedding_photos" ++ "/" ++ sanitize gn, ?_, ?_⟩
  · cases outcome <;> simp [uploadHandler, hgn]
  · refine ⟨⟨key, now / 1000,
      signatureOf (jsOrDefault baseEnv "wedding_photos" ++ "/" ++ sanitize gn)
        (now / 1000) secret, cn,
      jsOrDefault baseEnv "wedding_photos" ++ "/" ++ sanitize gn⟩, ?_, rfl⟩
    simp [signHandler, hc, hk, hs, htrim, hsan]

/-- C10 witness: the concrete guest name `Maria_Lopez`. -/
theorem upload_sign_folders_agree_witness :
    ("Maria_Lopez" : String) ≠ "" ∧ jsTrim "Maria_Lopez" = "Maria_Lopez" ∧
    ∃ folder,
      (uploadHandler "Maria_Lopez" (some ⟨"uploads/t9", "d.jpg"⟩)
        (.ok "pid" "https://res.example/x.jpg") "id9" "").remoteFolder =
        some folder ∧
      ∃ b, signHandler "cloud9" "key9" "sec9" "" (some "Maria_Lopez") 1700000000000 =
             ⟨200, .params b⟩ ∧ b.folder = folder :=
  ⟨by decide, by decide,
   upload_sign_folders_agree "Maria_Lopez" ⟨"uploads/t9", "d.jpg"⟩
     (.ok "pid" "https://res.example/x.jpg") "id9" "" "cloud9" "key9" "sec9"
     1700000000000 (by decide) (by decide) (by decide) (by decide) (by decide)⟩
